import Mathlib

/-!
Verification of the transient-object abstraction over a TPM
(src/src/abstraction/transient.rs).

The public operations of TransientObjectContext are embedded as programs in
the EStateM Error monad over an explicit context state.  The external driver
(the crate's Context structure, which is not part of the sources under
verification) is modelled from the specification as a small state machine: it
keeps a table of occupied volatile slots, a trace of the primitive calls that
were issued, and consumes an oracle that decides, per call, whether the call
succeeds and which entropy it returns.  This lets every error path of the
abstraction be explored while the abstraction's own control flow is a direct
translation of the Rust source.
-/

namespace Tss

/-! ## TPM constants (values from the TSS constants module) -/

def TPM2_ALG_RSA : Nat := 0x0001
def TPM2_ALG_AES : Nat := 0x0006
def TPM2_ALG_SHA256 : Nat := 0x000B
def TPM2_ALG_NULL : Nat := 0x0010
def TPM2_ALG_RSASSA : Nat := 0x0014
def TPM2_ALG_CFB : Nat := 0x0043
def TPM2_SE_HMAC : Nat := 0x00
def TPM2_ST_VERIFIED : Nat := 0x8022
def TPM2_ST_HASHCHECK : Nat := 0x8024
def TPM2_RH_OWNER : Nat := 0x40000001
def TPM2_RH_NULL : Nat := 0x40000007
def ESYS_TR_NONE : Nat := 0xFFF
def ESYS_TR_RH_OWNER : Nat := 0x101
def TPMA_SESSION_DECRYPT : Nat := 0x20
def TPMA_SESSION_ENCRYPT : Nat := 0x40

def NO_SESSIONS : Nat × Nat × Nat := (ESYS_TR_NONE, ESYS_TR_NONE, ESYS_TR_NONE)

/-! ## Errors (response_code.rs is not under src/; modelled from the spec's
error taxonomy: local validation / unsupported-parameter errors versus
driver-reported errors). -/

inductive WrapperErrorKind where
  | WrongParamSize
  | UnsupportedParam
  | InconsistentParams
  | WrongValue
  deriving DecidableEq, Repr

inductive Error where
  | WrapperError (kind : WrapperErrorKind)
  | Tss2Error (code : Nat)
  deriving DecidableEq, Repr

/-- Mirrors Error::local_error from the wrapper crate. -/
def Error.local_error (kind : WrapperErrorKind) : Error := Error.WrapperError kind

/-! ## TPM wire structures (tss2_esys types used by transient.rs).
The public-identity union is tag-discriminated in C; it is embedded as an
inductive whose constructor plays the role of the algorithm tag. -/

structure TPM2B_PUBLIC_KEY_RSA where
  size : Nat
  buffer : List Nat
  deriving DecidableEq, Repr

inductive TPMU_PUBLIC_ID where
  | rsa (k : TPM2B_PUBLIC_KEY_RSA)
  | keyedHash (digest : List Nat)
  | sym (digest : List Nat)
  | ecc (x y : List Nat)
  | unknown (tag : Nat)
  deriving DecidableEq, Repr

structure TPMT_PUBLIC where
  restricted : Bool
  decrypt : Bool
  sign : Bool
  keyBits : Nat
  unique : TPMU_PUBLIC_ID
  deriving DecidableEq, Repr

structure TPM2B_PUBLIC where
  publicArea : TPMT_PUBLIC
  deriving DecidableEq, Repr

structure TPMT_SIG_SCHEME where
  scheme : Nat
  details : Nat
  deriving DecidableEq, Repr

structure TPMT_TK_HASHCHECK where
  tag : Nat
  hierarchy : Nat
  digest : List Nat
  deriving DecidableEq, Repr

structure TPMT_SIGNATURE where
  sigAlg : Nat
  size : Nat
  buffer : List Nat
  deriving DecidableEq, Repr

structure TPMT_TK_VERIFIED where
  tag : Nat
  hierarchy : Nat
  deriving DecidableEq, Repr

/-! ## Caller-facing representations from utils.rs (not under src/). -/

/-- Modelled from the spec: the caller-facing signature representation
(utils::Signature), an algorithm identifier plus the raw signature bytes. -/
structure Signature where
  scheme : Nat
  signature : List Nat
  deriving DecidableEq, Repr

/-- Modelled from the spec: the caller-facing verification-ticket
representation (utils::TpmtTkVerified). -/
structure TpmtTkVerified where
  hierarchy : Nat
  deriving DecidableEq, Repr

/-- Modelled from the spec: conversion of the caller-facing signature into the
module's wire structure; a pure, fallible conversion with no module
interaction (it fails when the signature bytes exceed the wire buffer). -/
def Signature.tryIntoTpmt (s : Signature) : Except Error TPMT_SIGNATURE :=
  if s.signature.length > 512 then
    Except.error (Error.local_error WrapperErrorKind.WrongParamSize)
  else
    Except.ok { sigAlg := s.scheme, size := s.signature.length,
                buffer := s.signature ++ List.replicate (512 - s.signature.length) 0 }

/-- Modelled from the spec: conversion of the module's verification ticket
into the caller-facing representation; pure and fallible (it fails when the
ticket tag is not the verified tag). -/
def TPMT_TK_VERIFIED.tryIntoTk (t : TPMT_TK_VERIFIED) : Except Error TpmtTkVerified :=
  if t.tag = TPM2_ST_VERIFIED then Except.ok { hierarchy := t.hierarchy }
  else Except.error (Error.local_error WrapperErrorKind.InconsistentParams)

/-- Modelled from the spec: utils::get_rsa_public (helper outside src/) builds
an RSA public-key template with the given attribute flags and key size in
bits, and an empty unique field. -/
def get_rsa_public (restricted : Bool) (decrypt : Bool) (sign : Bool)
    (key_bits : Nat) : TPM2B_PUBLIC :=
  { publicArea :=
      { restricted := restricted, decrypt := decrypt, sign := sign,
        keyBits := key_bits,
        unique := TPMU_PUBLIC_ID.rsa { size := 0, buffer := List.replicate 512 0 } } }

/-- Modelled from the spec: utils::PublicIdUnion, the interpreted view of the
public-identity union of a public area. -/
inductive PublicIdUnion where
  | Rsa (k : TPM2B_PUBLIC_KEY_RSA)
  | KeyedHash (digest : List Nat)
  | Sym (digest : List Nat)
  | Ecc (x y : List Nat)
  deriving DecidableEq, Repr

/-- Modelled from the spec: utils::PublicIdUnion::from_public interprets the
public-identity data of a public area according to its algorithm variant; an
unrecognized variant is an unsupported-parameter error. -/
def PublicIdUnion.from_public (p : TPM2B_PUBLIC) : Except Error PublicIdUnion :=
  match p.publicArea.unique with
  | TPMU_PUBLIC_ID.rsa k => Except.ok (PublicIdUnion.Rsa k)
  | TPMU_PUBLIC_ID.keyedHash d => Except.ok (PublicIdUnion.KeyedHash d)
  | TPMU_PUBLIC_ID.sym d => Except.ok (PublicIdUnion.Sym d)
  | TPMU_PUBLIC_ID.ecc x y => Except.ok (PublicIdUnion.Ecc x y)
  | TPMU_PUBLIC_ID.unknown _ =>
      Except.error (Error.local_error WrapperErrorKind.UnsupportedParam)

/-- Modelled from the spec: utils::TpmaSession, a session-attribute bit mask
built by a with_flag builder. -/
structure TpmaSession where
  flags : Nat
  deriving DecidableEq, Repr

def TpmaSession.new : TpmaSession := { flags := 0 }

def TpmaSession.with_flag (a : TpmaSession) (f : Nat) : TpmaSession :=
  { flags := Nat.lor a.flags f }

/-- Modelled from the spec: utils::TpmtSymDefBuilder output for AES-256-CFB
parameter encryption. -/
structure TpmtSymDef where
  algorithm : Nat
  keyBits : Nat
  mode : Nat
  deriving DecidableEq, Repr

def TpmtSymDefBuilder.aes_256_cfb : TpmtSymDef :=
  { algorithm := TPM2_ALG_AES, keyBits := 256, mode := TPM2_ALG_CFB }

/-! ## The driver model.
Context (context.rs) is not under src/.  It is modelled from the spec,
section 6, as a state machine over a table of occupied volatile slots.  Each
primitive call consumes one oracle entry which decides whether the driver
reports success or a failure, and which entropy the module's random source
produces.  Every issued call is recorded in a trace. -/

/-- An object occupying a volatile slot: a loaded key (with its public area)
or a session. -/
inductive TpmObject where
  | key (pub : TPM2B_PUBLIC)
  | session
  deriving DecidableEq, Repr

/-- A context blob: an opaque exported snapshot of a loaded object's state
(spec, section 3), produced by context-save and consumed by context-load. -/
structure TpmsContext where
  obj : TpmObject
  deriving DecidableEq, Repr

/-- The public area of a slot object when it is a loaded key. -/
def TpmObject.asKey : TpmObject → Option TPM2B_PUBLIC
  | TpmObject.key p => some p
  | TpmObject.session => none

/-- The primitive driver calls of spec section 6, as recorded in the trace. -/
inductive DriverCall where
  | getRandom (num_bytes : Nat)
  | setHandleAuth (handle : Nat) (auth : List Nat)
  | createPrimaryKey (hierarchy : Nat) (pub : TPM2B_PUBLIC) (auth : List Nat)
  | startAuthSession (tpmKey : Nat) (bindKey : Nat) (sessionType : Nat)
      (symDef : TpmtSymDef) (authHash : Nat)
  | createKey (parent : Nat) (pub : TPM2B_PUBLIC) (auth : List Nat)
  | load (parent : Nat) (priv : Nat) (pub : TPM2B_PUBLIC)
  | loadExternalPublic (pub : TPM2B_PUBLIC) (hierarchy : Nat)
  | contextSave (handle : Nat)
  | contextLoad (blob : TpmsContext)
  | flushContext (handle : Nat)
  | readPublic (handle : Nat)
  | signDigest (handle : Nat) (digest : List Nat) (scheme : TPMT_SIG_SCHEME)
      (validation : TPMT_TK_HASHCHECK)
  | verifySig (handle : Nat) (digest : List Nat) (sig : TPMT_SIGNATURE)
  | setSessionAttr (session : Nat) (flags : Nat)
  deriving DecidableEq, Repr

/-- One oracle entry: an optional injected driver failure for the call, and
the entropy stream backing the module's random source for that call. -/
structure OracleEntry where
  err : Option Error
  rnd : Nat → Nat

/-- The driver/context state: the oracle, the number of calls issued so far,
the trace of issued calls, the occupied volatile-slot table (handle to
object), the next fresh handle, and the active session triple. -/
structure Ctx where
  oracle : Nat → OracleEntry
  tick : Nat
  trace : List DriverCall
  slots : List (Nat × TpmObject)
  nextHandle : Nat
  sessions : Nat × Nat × Nat

/-- Modelled from the spec: Context::new opens the transport and starts with
one default active session occupying a slot. -/
def Ctx.new (o : Nat → OracleEntry) : Ctx :=
  { oracle := o, tick := 0, trace := [], slots := [(0, TpmObject.session)],
    nextHandle := 1, sessions := (0, ESYS_TR_NONE, ESYS_TR_NONE) }

/-- Issue a driver call: consume the next oracle entry and record the call in
the trace. -/
def Ctx.call (c : Ctx) (dc : DriverCall) : OracleEntry × Ctx :=
  (c.oracle c.tick,
   { c with tick := c.tick + 1, trace := c.trace ++ [dc] })

/-- Modelled from the spec: random-byte generation; on success the module
returns exactly the requested number of bytes. -/
def Ctx.get_random (num_bytes : Nat) : EStateM Error Ctx (List Nat) := fun c =>
  let (e, c) := c.call (DriverCall.getRandom num_bytes)
  match e.err with
  | some er => EStateM.Result.error er c
  | none => EStateM.Result.ok ((List.range num_bytes).map fun i => e.rnd i % 256) c

/-- Modelled from the spec: hierarchy/handle auth binding. -/
def Ctx.set_handle_auth (handle : Nat) (auth : List Nat) :
    EStateM Error Ctx Unit := fun c =>
  let (e, c) := c.call (DriverCall.setHandleAuth handle auth)
  match e.err with
  | some er => EStateM.Result.error er c
  | none => EStateM.Result.ok () c

/-- Modelled from the spec: primary-key creation under a hierarchy; the new
object occupies a fresh volatile slot.  The always-empty outside-info,
creation-PCR and creation-data arguments of the Rust signature are omitted. -/
def Ctx.create_primary_key (hierarchy : Nat) (pub : TPM2B_PUBLIC)
    (auth : List Nat) : EStateM Error Ctx Nat := fun c =>
  let (e, c) := c.call (DriverCall.createPrimaryKey hierarchy pub auth)
  match e.err with
  | some er => EStateM.Result.error er c
  | none =>
      EStateM.Result.ok c.nextHandle
        { c with slots := c.slots ++ [(c.nextHandle, TpmObject.key pub)],
                 nextHandle := c.nextHandle + 1 }

/-- Modelled from the spec: authenticated-session creation; the new session
occupies a fresh volatile slot. -/
def Ctx.start_auth_session (_sessionHandles : Nat × Nat × Nat) (tpmKey : Nat)
    (bindKey : Nat) (_nonce : List Nat) (sessionType : Nat) (symDef : TpmtSymDef)
    (authHash : Nat) : EStateM Error Ctx Nat := fun c =>
  let (e, c) := c.call (DriverCall.startAuthSession tpmKey bindKey sessionType
    symDef authHash)
  match e.err with
  | some er => EStateM.Result.error er c
  | none =>
      EStateM.Result.ok c.nextHandle
        { c with slots := c.slots ++ [(c.nextHandle, TpmObject.session)],
                 nextHandle := c.nextHandle + 1 }

/-- Modelled from the spec: child-key creation under a parent; returns the
private and public parts without occupying a slot.  The private part is
opaque to this layer. -/
def Ctx.create_key (parent : Nat) (pub : TPM2B_PUBLIC) (auth : List Nat) :
    EStateM Error Ctx (Nat × TPM2B_PUBLIC) := fun c =>
  let (e, c) := c.call (DriverCall.createKey parent pub auth)
  match e.err with
  | some er => EStateM.Result.error er c
  | none => EStateM.Result.ok (c.tick, pub) c

/-- Modelled from the spec: loading a private/public pair into a volatile
slot. -/
def Ctx.load (parent : Nat) (priv : Nat) (pub : TPM2B_PUBLIC) :
    EStateM Error Ctx Nat := fun c =>
  let (e, c) := c.call (DriverCall.load parent priv pub)
  match e.err with
  | some er => EStateM.Result.error er c
  | none =>
      EStateM.Result.ok c.nextHandle
        { c with slots := c.slots ++ [(c.nextHandle, TpmObject.key pub)],
                 nextHandle := c.nextHandle + 1 }

/-- Modelled from the spec: loading an external public-only object into a
volatile slot. -/
def Ctx.load_external_public (pub : TPM2B_PUBLIC) (hierarchy : Nat) :
    EStateM Error Ctx Nat := fun c =>
  let (e, c) := c.call (DriverCall.loadExternalPublic pub hierarchy)
  match e.err with
  | some er => EStateM.Result.error er c
  | none =>
      EStateM.Result.ok c.nextHandle
        { c with slots := c.slots ++ [(c.nextHandle, TpmObject.key pub)],
                 nextHandle := c.nextHandle + 1 }

/-- Modelled from the spec: saving a slot's state into an opaque context
blob; the slot stays occupied. -/
def Ctx.context_save (handle : Nat) : EStateM Error Ctx TpmsContext := fun c =>
  let (e, c) := c.call (DriverCall.contextSave handle)
  match e.err with
  | some er => EStateM.Result.error er c
  | none =>
      match c.slots.lookup handle with
      | some o => EStateM.Result.ok { obj := o } c
      | none => EStateM.Result.error (Error.Tss2Error 0x18B) c

/-- Modelled from the spec: loading a context blob back into a fresh volatile
slot. -/
def Ctx.context_load (blob : TpmsContext) : EStateM Error Ctx Nat := fun c =>
  let (e, c) := c.call (DriverCall.contextLoad blob)
  match e.err with
  | some er => EStateM.Result.error er c
  | none =>
      EStateM.Result.ok c.nextHandle
        { c with slots := c.slots ++ [(c.nextHandle, blob.obj)],
                 nextHandle := c.nextHandle + 1 }

/-- Modelled from the spec: flushing a handle releases its volatile slot; a
failed flush leaves the slot occupied. -/
def Ctx.flush_context (handle : Nat) : EStateM Error Ctx Unit := fun c =>
  let (e, c) := c.call (DriverCall.flushContext handle)
  match e.err with
  | some er => EStateM.Result.error er c
  | none =>
      if (c.slots.lookup handle).isSome then
        EStateM.Result.ok ()
          { c with slots := c.slots.filter (fun p => p.1 != handle) }
      else EStateM.Result.error (Error.Tss2Error 0x18B) c

/-- Modelled from the spec: reading a loaded object's public area. -/
def Ctx.read_public (handle : Nat) : EStateM Error Ctx TPM2B_PUBLIC := fun c =>
  let (e, c) := c.call (DriverCall.readPublic handle)
  match e.err with
  | some er => EStateM.Result.error er c
  | none =>
      match (c.slots.lookup handle).bind TpmObject.asKey with
      | some p => EStateM.Result.ok p c
      | none => EStateM.Result.error (Error.Tss2Error 0x18B) c

/-- Modelled from the spec: signing a digest with a loaded key; a semantic
rejection by the module arrives as an injected driver error. -/
def Ctx.sign (handle : Nat) (digest : List Nat) (scheme : TPMT_SIG_SCHEME)
    (validation : TPMT_TK_HASHCHECK) : EStateM Error Ctx Signature := fun c =>
  let (e, c) := c.call (DriverCall.signDigest handle digest scheme validation)
  match e.err with
  | some er => EStateM.Result.error er c
  | none =>
      EStateM.Result.ok
        { scheme := TPM2_ALG_RSASSA,
          signature := (List.range 32).map fun i => e.rnd i % 256 } c

/-- Modelled from the spec: verifying a signature against a loaded key and a
digest; an invalid signature arrives as an injected driver error, a valid one
yields a verified ticket. -/
def Ctx.verify_signature (handle : Nat) (digest : List Nat)
    (sig : TPMT_SIGNATURE) : EStateM Error Ctx TPMT_TK_VERIFIED := fun c =>
  let (e, c) := c.call (DriverCall.verifySig handle digest sig)
  match e.err with
  | some er => EStateM.Result.error er c
  | none =>
      EStateM.Result.ok { tag := TPM2_ST_VERIFIED, hierarchy := TPM2_RH_OWNER } c

/-- Modelled from the spec: setting the attribute flags of a session. -/
def Ctx.set_session_attr (session : Nat) (attrs : TpmaSession) :
    EStateM Error Ctx Unit := fun c =>
  let (e, c) := c.call (DriverCall.setSessionAttr session attrs.flags)
  match e.err with
  | some er => EStateM.Result.error er c
  | none => EStateM.Result.ok () c

/-- The session-handle accessor (Context::sessions); a plain field read, not
a driver call. -/
def Ctx.sessionsGet : EStateM Error Ctx (Nat × Nat × Nat) := fun c =>
  EStateM.Result.ok c.sessions c

/-- The session-handle setter (Context::set_sessions); a plain field write,
not a driver call. -/
def Ctx.set_sessions (s : Nat × Nat × Nat) : EStateM Error Ctx Unit := fun c =>
  EStateM.Result.ok () { c with sessions := s }

/-! ## The abstraction under verification (transient.rs). -/

/-- The TransientObjectContext structure of transient.rs: the driver context
plus the long-lived root-key handle. -/
structure TransientObjectContext where
  context : Ctx
  root_key_handle : Nat

/-- Lift a driver-context program to a program over the abstraction state. -/
def liftCtx {α : Type} (x : EStateM Error Ctx α) :
    EStateM Error TransientObjectContext α := fun t =>
  match x t.context with
  | EStateM.Result.ok a c => EStateM.Result.ok a { t with context := c }
  | EStateM.Result.error e c => EStateM.Result.error e { t with context := c }

/-- The or_else flush-then-propagate pattern of transient.rs: run the
operation; on failure, flush the handle and propagate the original error,
except that a failure of the flush itself propagates instead. -/
def orElseFlush {α : Type} (x : EStateM Error TransientObjectContext α)
    (handle : Nat) : EStateM Error TransientObjectContext α := fun t =>
  match x t with
  | EStateM.Result.ok a t => EStateM.Result.ok a t
  | EStateM.Result.error e t =>
      match liftCtx (Ctx.flush_context handle) t with
      | EStateM.Result.ok _ t => EStateM.Result.error e t
      | EStateM.Result.error e2 t => EStateM.Result.error e2 t

/-- TransientObjectContext::set_session_attrs (transient.rs lines 336-343):
force the decrypt and encrypt flags on the active session. -/
def TransientObjectContext.set_session_attrs :
    EStateM Error TransientObjectContext Unit := fun t =>
  let (session, _, _) := t.context.sessions
  let session_attr :=
    (TpmaSession.new.with_flag TPMA_SESSION_DECRYPT).with_flag
      TPMA_SESSION_ENCRYPT
  liftCtx (Ctx.set_session_attr session session_attr) t

/-- TransientObjectContext::new (transient.rs lines 71-119), the part after
the transport context has been created. -/
def TransientObjectContext.newBody (root_key_size : Nat)
    (root_key_auth_size : Nat) (owner_hierarchy_auth : List Nat) :
    EStateM Error Ctx Nat := do
  let root_key_auth ←
    if root_key_auth_size > 0 then Ctx.get_random root_key_auth_size
    else pure []
  if owner_hierarchy_auth ≠ [] then
    Ctx.set_handle_auth ESYS_TR_RH_OWNER owner_hierarchy_auth
  let root_key_handle ← Ctx.create_primary_key ESYS_TR_RH_OWNER
    (get_rsa_public true true false root_key_size) root_key_auth
  let new_session ← Ctx.start_auth_session NO_SESSIONS root_key_handle
    ESYS_TR_NONE [] TPM2_SE_HMAC TpmtSymDefBuilder.aes_256_cfb TPM2_ALG_SHA256
  let old_sessions ← Ctx.sessionsGet
  Ctx.set_sessions (new_session, ESYS_TR_NONE, ESYS_TR_NONE)
  Ctx.flush_context old_sessions.1
  pure root_key_handle

/-- TransientObjectContext::new (transient.rs lines 71-119): the size checks
happen before the transport context is created; the first component of the
result is the driver context that was created (none when the checks failed
before creating one). -/
def TransientObjectContext.new (o : Nat → OracleEntry) (root_key_size : Nat)
    (root_key_auth_size : Nat) (owner_hierarchy_auth : List Nat) :
    Option Ctx × Except Error TransientObjectContext :=
  if root_key_auth_size > 32 then
    (none, Except.error (Error.local_error WrapperErrorKind.WrongParamSize))
  else if root_key_size ≠ 1024 ∧ root_key_size ≠ 2048 then
    (none, Except.error (Error.local_error WrapperErrorKind.WrongParamSize))
  else
    match TransientObjectContext.newBody root_key_size root_key_auth_size
        owner_hierarchy_auth (Ctx.new o) with
    | EStateM.Result.ok h c =>
        (some c, Except.ok { context := c, root_key_handle := h })
    | EStateM.Result.error e c => (some c, Except.error e)

/-- TransientObjectContext::create_rsa_signing_key (transient.rs lines
137-173). -/
def TransientObjectContext.create_rsa_signing_key (key_size : Nat)
    (auth_size : Nat) :
    EStateM Error TransientObjectContext (TpmsContext × List Nat) := do
  if auth_size > 32 then
    throw (Error.local_error WrapperErrorKind.WrongParamSize)
  if key_size ≠ 1024 ∧ key_size ≠ 2048 then
    throw (Error.local_error WrapperErrorKind.WrongParamSize)
  let key_auth ←
    if auth_size > 0 then do
      TransientObjectContext.set_session_attrs
      liftCtx (Ctx.get_random auth_size)
    else pure []
  TransientObjectContext.set_session_attrs
  let t ← get
  let key_pair ← liftCtx (Ctx.create_key t.root_key_handle
    (get_rsa_public false false true key_size) key_auth)
  TransientObjectContext.set_session_attrs
  let key_handle ← liftCtx (Ctx.load t.root_key_handle key_pair.1 key_pair.2)
  TransientObjectContext.set_session_attrs
  let key_context ← orElseFlush (liftCtx (Ctx.context_save key_handle))
    key_handle
  liftCtx (Ctx.flush_context key_handle)
  pure (key_context, key_auth)

/-- The public template built by load_external_rsa_public_key (transient.rs
lines 191-207): the 512-byte buffer is zero-initialized and the modulus bytes
are copied into its prefix; the recorded size is the modulus length; the
template is the sign-only non-restricted RSA template sized from the byte
length, with its unique field replaced by the modulus. -/
def externalRsaTemplate (public_key : List Nat) : TPM2B_PUBLIC :=
  let pk_buffer := public_key ++ List.replicate (512 - public_key.length) 0
  let pk := TPMU_PUBLIC_ID.rsa { size := public_key.length, buffer := pk_buffer }
  let basePub := get_rsa_public false false true (public_key.length * 8)
  { publicArea := { basePub.publicArea with unique := pk } }

/-- TransientObjectContext::load_external_rsa_public_key (transient.rs lines
187-220). -/
def TransientObjectContext.load_external_rsa_public_key
    (public_key : List Nat) :
    EStateM Error TransientObjectContext TpmsContext := do
  if public_key.length ≠ 128 ∧ public_key.length ≠ 256 then
    throw (Error.local_error WrapperErrorKind.WrongParamSize)
  let pub := externalRsaTemplate public_key
  TransientObjectContext.set_session_attrs
  let key_handle ← liftCtx (Ctx.load_external_public pub TPM2_RH_OWNER)
  TransientObjectContext.set_session_attrs
  let key_context ← orElseFlush (liftCtx (Ctx.context_save key_handle))
    key_handle
  liftCtx (Ctx.flush_context key_handle)
  pure key_context

/-- TransientObjectContext::read_public_key (transient.rs lines 230-251). -/
def TransientObjectContext.read_public_key (key_context : TpmsContext) :
    EStateM Error TransientObjectContext (List Nat) := do
  TransientObjectContext.set_session_attrs
  let key_handle ← liftCtx (Ctx.context_load key_context)
  TransientObjectContext.set_session_attrs
  let key_pub_id ← orElseFlush (liftCtx (Ctx.read_public key_handle))
    key_handle
  let u ←
    match PublicIdUnion.from_public key_pub_id with
    | Except.ok u => pure u
    | Except.error e => throw e
  let key ←
    match u with
    | PublicIdUnion.Rsa pub_key => pure (pub_key.buffer.take pub_key.size)
    | _ => throw (Error.local_error WrapperErrorKind.UnsupportedParam)
  liftCtx (Ctx.flush_context key_handle)
  pure key

/-- TransientObjectContext::sign (transient.rs lines 261-295). -/
def TransientObjectContext.sign (key_context : TpmsContext)
    (key_auth : List Nat) (digest : List Nat) :
    EStateM Error TransientObjectContext Signature := do
  TransientObjectContext.set_session_attrs
  let key_handle ← liftCtx (Ctx.context_load key_context)
  orElseFlush (liftCtx (Ctx.set_handle_auth key_handle key_auth)) key_handle
  let scheme : TPMT_SIG_SCHEME := { scheme := TPM2_ALG_NULL, details := 0 }
  let validation : TPMT_TK_HASHCHECK :=
    { tag := TPM2_ST_HASHCHECK, hierarchy := TPM2_RH_NULL, digest := [] }
  TransientObjectContext.set_session_attrs
  let signature ← orElseFlush
    (liftCtx (Ctx.sign key_handle digest scheme validation)) key_handle
  liftCtx (Ctx.flush_context key_handle)
  pure signature

/-- TransientObjectContext::verify_signature (transient.rs lines 307-330). -/
def TransientObjectContext.verify_signature (key_context : TpmsContext)
    (digest : List Nat) (signature : Signature) :
    EStateM Error TransientObjectContext TpmtTkVerified := do
  TransientObjectContext.set_session_attrs
  let key_handle ← liftCtx (Ctx.context_load key_context)
  let sigWire ←
    match signature.tryIntoTpmt with
    | Except.ok s => pure s
    | Except.error e => do
        liftCtx (Ctx.flush_context key_handle)
        throw e
  TransientObjectContext.set_session_attrs
  let verified ← orElseFlush
    (liftCtx (Ctx.verify_signature key_handle digest sigWire)) key_handle
  liftCtx (Ctx.flush_context key_handle)
  match verified.tryIntoTk with
  | Except.ok v => pure v
  | Except.error e => throw e

/-! ## Observers and well-formedness. -/

/-- The state carried by an execution result (in Rust the receiver is a
mutable borrow, so the context survives both outcomes). -/
def resState {α : Type} :
    EStateM.Result Error TransientObjectContext α → TransientObjectContext
  | EStateM.Result.ok _ t => t
  | EStateM.Result.error _ t => t

/-- The error reported by an execution result, when there is one. -/
def resErr {α : Type} : EStateM.Result Error TransientObjectContext α → Option Error
  | EStateM.Result.ok _ _ => none
  | EStateM.Result.error e _ => some e

/-- The value produced by an execution result, when there is one. -/
def resVal {α : Type} : EStateM.Result Error TransientObjectContext α → Option α
  | EStateM.Result.ok a _ => some a
  | EStateM.Result.error _ _ => none

/-- Number of occupied volatile slots in the module. -/
def Ctx.slotCount (c : Ctx) : Nat := c.slots.length

/-- Number of occupied volatile slots seen from the abstraction. -/
def TransientObjectContext.slotCount (t : TransientObjectContext) : Nat :=
  t.context.slots.length

/-- Well-formed driver state: every occupied slot's handle is below the next
fresh handle, so fresh handles never collide with occupied ones. -/
def Ctx.wf (c : Ctx) : Prop := ∀ p ∈ c.slots, p.1 < c.nextHandle

instance (c : Ctx) : Decidable c.wf := by
  unfold Ctx.wf; infer_instance

/-! ## Trace predicates for the session-attribute discipline. -/

/-- The driver calls that carry sensitive parameters in
create_rsa_signing_key: random-byte request, key creation, load, context
save. -/
def sensitiveCall : DriverCall → Bool
  | DriverCall.getRandom _ => true
  | DriverCall.createKey _ _ _ => true
  | DriverCall.load _ _ _ => true
  | DriverCall.contextSave _ => true
  | _ => false

/-- A session-attribute assertion setting exactly the decrypt and encrypt
flags, as set_session_attrs does. -/
def isAttrAssert : DriverCall → Bool
  | DriverCall.setSessionAttr _ f =>
      f == ((TpmaSession.new.with_flag TPMA_SESSION_DECRYPT).with_flag
        TPMA_SESSION_ENCRYPT).flags
  | _ => false

/-- Scan of a trace suffix: every sensitive call is immediately preceded by a
session-attribute assertion (the previous call is passed along). -/
def attrGuardedFrom : DriverCall → List DriverCall → Bool
  | _, [] => true
  | prev, c :: rest => (!sensitiveCall c || isAttrAssert prev) && attrGuardedFrom c rest

/-- Every sensitive call in the trace is immediately preceded by a
session-attribute assertion (in particular the first call is not sensitive). -/
def attrGuarded : List DriverCall → Bool
  | [] => true
  | c :: rest => !sensitiveCall c && attrGuardedFrom c rest

/-! ## Concrete fixtures used by witnesses and counterexamples. -/

/-- An oracle entry reporting success with zero entropy. -/
def okEntry : OracleEntry := { err := none, rnd := fun _ => 0 }

/-- The all-success oracle. -/
def okOracle : Nat → OracleEntry := fun _ => okEntry

/-- An oracle that makes exactly the k-th driver call fail with the given
error and lets every other call succeed. -/
def failAt (k : Nat) (e : Error) : Nat → OracleEntry := fun i =>
  if i = k then { err := some e, rnd := fun _ => 0 } else okEntry

/-- An oracle that makes the j-th and k-th driver calls fail with the given
errors and lets every other call succeed. -/
def failAt2 (j : Nat) (e1 : Error) (k : Nat) (e2 : Error) :
    Nat → OracleEntry := fun i =>
  if i = j then { err := some e1, rnd := fun _ => 0 }
  else if i = k then { err := some e2, rnd := fun _ => 0 }
  else okEntry

/-- A concrete post-construction abstraction state over the given oracle:
slot 0 holds the active session, slot 1 the root key. -/
def mkToc (o : Nat → OracleEntry) : TransientObjectContext :=
  { context :=
      { oracle := o, tick := 0, trace := [],
        slots := [(0, TpmObject.session),
                  (1, TpmObject.key (get_rsa_public true true false 2048))],
        nextHandle := 2, sessions := (0, ESYS_TR_NONE, ESYS_TR_NONE) },
    root_key_handle := 1 }

/-- Slot accounting for one execution result: a normal return leaves the
occupied-slot count at its initial value n; an error return leaves it at n or
leaks at most the one loaded slot. -/
def slotDelta {α : Type} (res : EStateM.Result Error TransientObjectContext α)
    (n : Nat) : Prop :=
  match res with
  | EStateM.Result.ok _ t2 => t2.slotCount = n
  | EStateM.Result.error _ t2 => t2.slotCount = n ∨ t2.slotCount = n + 1

/-- Whether a public-identity union is the RSA variant. -/
def TPMU_PUBLIC_ID.isRsa : TPMU_PUBLIC_ID → Bool
  | TPMU_PUBLIC_ID.rsa _ => true
  | _ => false

/-- On a normal return carrying a blob and an auth value, the auth value has
the stated byte length; an error return is unconstrained. -/
def authLenOk (res : EStateM.Result Error TransientObjectContext
    (TpmsContext × List Nat)) (n : Nat) : Prop :=
  match res with
  | EStateM.Result.ok r _ => r.2.length = n
  | EStateM.Result.error _ _ => True

/-- On a normal return, the blob produced by load_external_rsa_public_key
holds exactly the built external RSA template; an error return is
unconstrained. -/
def blobHoldsTemplate (res : EStateM.Result Error TransientObjectContext
    TpmsContext) (public_key : List Nat) : Prop :=
  match res with
  | EStateM.Result.ok r _ => r.obj = TpmObject.key (externalRsaTemplate public_key)
  | EStateM.Result.error _ _ => True

/-- A concrete non-RSA public area and the blob carrying it, used to exhibit
the missing flush in read_public_key. -/
def nonRsaPublic : TPM2B_PUBLIC :=
  { publicArea :=
      { restricted := false, decrypt := false, sign := true,
        keyBits := 1024, unique := TPMU_PUBLIC_ID.keyedHash [] } }

def nonRsaBlob : TpmsContext := { obj := TpmObject.key nonRsaPublic }

/-! ## Reduction lemmas: applying monadic programs to a concrete state. -/

@[simp] theorem bind_apply {ε σ α β : Type} (x : EStateM ε σ α)
    (f : α → EStateM ε σ β) (s : σ) : (x >>= f) s =
      match x s with
      | EStateM.Result.ok a s2 => f a s2
      | EStateM.Result.error e s2 => EStateM.Result.error e s2 := rfl

@[simp] theorem map_apply {ε σ α β : Type} (f : α → β) (x : EStateM ε σ α)
    (s : σ) : (f <$> x) s =
      match x s with
      | EStateM.Result.ok a s2 => EStateM.Result.ok (f a) s2
      | EStateM.Result.error e s2 => EStateM.Result.error e s2 := rfl

@[simp] theorem pure_apply {ε σ α : Type} (a : α) (s : σ) :
    (pure a : EStateM ε σ α) s = EStateM.Result.ok a s := rfl

@[simp] theorem throw_apply {ε σ α : Type} (e : ε) (s : σ) :
    (throw e : EStateM ε σ α) s = EStateM.Result.error e s := rfl

@[simp] theorem get_apply {ε σ : Type} (s : σ) :
    (get : EStateM ε σ σ) s = EStateM.Result.ok s s := rfl

attribute [simp] TpmObject.asKey TransientObjectContext.set_session_attrs
  liftCtx orElseFlush
  Ctx.get_random Ctx.set_handle_auth Ctx.create_primary_key
  Ctx.start_auth_session Ctx.create_key Ctx.load Ctx.load_external_public
  Ctx.context_save Ctx.context_load Ctx.flush_context Ctx.read_public
  Ctx.sign Ctx.verify_signature Ctx.set_session_attr Ctx.sessionsGet
  Ctx.set_sessions Ctx.call resState resErr resVal

/-! ## Freshness lemmas for the slot table. -/

theorem lookup_append_fresh (l : List (Nat × TpmObject)) (k : Nat)
    (x : TpmObject) (h : ∀ p ∈ l, p.1 < k) :
    List.lookup k (l ++ [(k, x)]) = some x := by
  induction l with
  | nil => simp [List.lookup]
  | cons a rest ih =>
      have hak : a.1 ≠ k := Nat.ne_of_lt (h a (by simp))
      have : (k == a.1) = false := by
        simp [Nat.ne_of_lt (h a (by simp)), Ne.symm hak]
      simp only [List.cons_append, List.lookup, this]
      exact ih fun p hp => h p (by simp [hp])

theorem filter_ne_append_fresh (l : List (Nat × TpmObject)) (k : Nat)
    (x : TpmObject) (h : ∀ p ∈ l, p.1 < k) :
    (l ++ [(k, x)]).filter (fun p => p.1 != k) = l := by
  induction l with
  | nil => simp
  | cons a rest ih =>
      have hak : a.1 ≠ k := Nat.ne_of_lt (h a (by simp))
      have hbne : (a.1 != k) = true := by simpa using hak
      simp only [List.cons_append, List.filter, hbne]
      rw [show rest.append [(k, x)] = rest ++ [(k, x)] from rfl,
        ih fun p hp => h p (by simp [hp])]

theorem add_shift_one (m k : Nat) : m + k + 1 = m + (k + 1) := rfl

/-! ## Per-operation slot accounting (used by the resource-safety claim). -/

theorem sign_slotDelta (t : TransientObjectContext) (hwf : t.context.wf)
    (blob : TpmsContext) (auth dg : List Nat) :
    slotDelta ((TransientObjectContext.sign blob auth dg) t) t.slotCount := by
  obtain ⟨⟨o, tk, tr, sl, nh, s1, s2, s3⟩, rk⟩ := t
  simp only [Ctx.wf] at hwf
  have hlk := lookup_append_fresh sl nh blob.obj hwf
  have hfl := filter_ne_append_fresh sl nh blob.obj hwf
  simp only [TransientObjectContext.sign, TransientObjectContext.slotCount,
    bind_apply, map_apply, pure_apply, throw_apply, get_apply,
    TransientObjectContext.set_session_attrs, liftCtx, orElseFlush,
    Ctx.context_load, Ctx.set_handle_auth, Ctx.sign, Ctx.flush_context,
    Ctx.set_session_attr, Ctx.call]
  rcases h0 : (o tk).err with _ | e0 <;> simp only [h0, slotDelta]
  case some => left; rfl
  rcases h1 : (o (tk + 1)).err with _ | e1 <;> simp only [h1, slotDelta]
  case some => left; rfl
  rcases h2 : (o (tk + 1 + 1)).err with _ | e2 <;>
    simp only [h2, slotDelta, hlk, hfl, Option.isSome_some, if_true]
  case some =>
    rcases h3 : (o (tk + 1 + 1 + 1)).err with _ | e3 <;>
      simp only [h3, slotDelta, hlk, hfl, Option.isSome_some, if_true]
    case some => right; simp [TransientObjectContext.slotCount]
    left; rfl
  rcases h3 : (o (tk + 1 + 1 + 1)).err with _ | e3 <;>
    simp only [h3, slotDelta, hlk, hfl, Option.isSome_some, if_true]
  case some => right; simp [TransientObjectContext.slotCount]
  rcases h4 : (o (tk + 1 + 1 + 1 + 1)).err with _ | e4 <;>
    simp only [h4, slotDelta, hlk, hfl, Option.isSome_some, if_true]
  case some =>
    rcases h5 : (o (tk + 1 + 1 + 1 + 1 + 1)).err with _ | e5 <;>
      simp only [h5, slotDelta, hlk, hfl, Option.isSome_some, if_true]
    case some => right; simp [TransientObjectContext.slotCount]
    left; rfl
  rcases h5 : (o (tk + 1 + 1 + 1 + 1 + 1)).err with _ | e5 <;>
    simp only [h5, slotDelta, hlk, hfl, Option.isSome_some, if_true]
  case some => right; simp [TransientObjectContext.slotCount]
  rfl

theorem verify_slotDelta (t : TransientObjectContext) (hwf : t.context.wf)
    (blob : TpmsContext) (dg : List Nat) (sg : Signature) :
    slotDelta ((TransientObjectContext.verify_signature blob dg sg) t)
      t.slotCount := by
  obtain ⟨⟨o, tk, tr, sl, nh, s1, s2, s3⟩, rk⟩ := t
  simp only [Ctx.wf] at hwf
  have hlk := lookup_append_fresh sl nh blob.obj hwf
  have hfl := filter_ne_append_fresh sl nh blob.obj hwf
  simp only [TransientObjectContext.verify_signature,
    TransientObjectContext.slotCount, bind_apply, map_apply, pure_apply,
    throw_apply, get_apply, TransientObjectContext.set_session_attrs, liftCtx,
    orElseFlush, Ctx.context_load, Ctx.verify_signature, Ctx.flush_context,
    Ctx.set_session_attr, Ctx.call]
  rcases h0 : (o tk).err with _ | e0 <;>
    simp [h0, hlk, hfl, slotDelta, TransientObjectContext.slotCount]
  rcases h1 : (o (tk + 1)).err with _ | e1 <;>
    simp [h1, hlk, hfl, slotDelta, TransientObjectContext.slotCount]
  rcases hc : sg.tryIntoTpmt with ec | sw <;>
    simp [hc, hlk, hfl, slotDelta, TransientObjectContext.slotCount]
  case error =>
    rcases h2 : (o (tk + 2)).err with _ | e2 <;>
      simp [h2, hlk, hfl, slotDelta, TransientObjectContext.slotCount]
  rcases h2 : (o (tk + 2)).err with _ | e2 <;>
    simp [h2, hlk, hfl, slotDelta, TransientObjectContext.slotCount]
  rcases h3 : (o (tk + 3)).err with _ | e3 <;>
    simp [h3, hlk, hfl, slotDelta, TransientObjectContext.slotCount]
  case some =>
    rcases h4 : (o (tk + 4)).err with _ | e4 <;>
      simp [h4, hlk, hfl, slotDelta, TransientObjectContext.slotCount]
  rcases h4 : (o (tk + 4)).err with _ | e4 <;>
    simp [h4, hlk, hfl, slotDelta, TransientObjectContext.slotCount,
      TPMT_TK_VERIFIED.tryIntoTk]

end Tss

namespace Tss

theorem read_slotDelta (t : TransientObjectContext) (hwf : t.context.wf)
    (blob : TpmsContext) :
    slotDelta ((TransientObjectContext.read_public_key blob) t)
      t.slotCount := by
  obtain ⟨⟨o, tk, tr, sl, nh, s1, s2, s3⟩, rk⟩ := t
  obtain ⟨bobj⟩ := blob
  simp only [Ctx.wf] at hwf
  have hlk := lookup_append_fresh sl nh bobj hwf
  have hfl := filter_ne_append_fresh sl nh bobj hwf
  simp only [TransientObjectContext.read_public_key]
  rcases bobj with bp | _
  case mk.session =>
    rcases h0 : (o tk).err with _ | e0 <;>
      simp [h0, hlk, hfl, slotDelta, TransientObjectContext.slotCount]
    rcases h1 : (o (tk + 1)).err with _ | e1 <;>
      simp [h1, hlk, hfl, slotDelta, TransientObjectContext.slotCount]
    rcases h2 : (o (tk + 2)).err with _ | e2 <;>
      simp [h2, hlk, hfl, slotDelta, TransientObjectContext.slotCount]
    rcases h3 : (o (tk + 3)).err with _ | e3 <;>
      simp [h3, hlk, hfl, slotDelta, TransientObjectContext.slotCount]
    case some =>
      rcases h4 : (o (tk + 4)).err with _ | e4 <;>
        simp [h4, hlk, hfl, slotDelta, TransientObjectContext.slotCount]
    rcases h4 : (o (tk + 4)).err with _ | e4 <;>
      simp [h4, hlk, hfl, slotDelta, TransientObjectContext.slotCount]
  rcases h0 : (o tk).err with _ | e0 <;>
    simp [h0, hlk, hfl, slotDelta, TransientObjectContext.slotCount]
  rcases h1 : (o (tk + 1)).err with _ | e1 <;>
    simp [h1, hlk, hfl, slotDelta, TransientObjectContext.slotCount]
  rcases h2 : (o (tk + 2)).err with _ | e2 <;>
    simp [h2, hlk, hfl, slotDelta, TransientObjectContext.slotCount]
  rcases h3 : (o (tk + 3)).err with _ | e3 <;>
    simp [h3, hlk, hfl, slotDelta, TransientObjectContext.slotCount]
  case some =>
    rcases h4 : (o (tk + 4)).err with _ | e4 <;>
      simp [h4, hlk, hfl, slotDelta, TransientObjectContext.slotCount]
  rcases hbu : bp.publicArea.unique with k | d | d2 | ⟨x, y⟩ | tag
  case rsa =>
    have hfp : PublicIdUnion.from_public bp = Except.ok (PublicIdUnion.Rsa k) := by
      unfold PublicIdUnion.from_public; rw [hbu]
    rw [hfp]
    simp [hlk, hfl, slotDelta, TransientObjectContext.slotCount]
    rcases h4 : (o (tk + 4)).err with _ | e4 <;>
      simp [h4, hlk, hfl, slotDelta, TransientObjectContext.slotCount]
  case keyedHash =>
    have hfp : PublicIdUnion.from_public bp
        = Except.ok (PublicIdUnion.KeyedHash d) := by
      unfold PublicIdUnion.from_public; rw [hbu]
    rw [hfp]
    simp [hlk, hfl, slotDelta, TransientObjectContext.slotCount]
  case sym =>
    have hfp : PublicIdUnion.from_public bp
        = Except.ok (PublicIdUnion.Sym d2) := by
      unfold PublicIdUnion.from_public; rw [hbu]
    rw [hfp]
    simp [hlk, hfl, slotDelta, TransientObjectContext.slotCount]
  case ecc =>
    have hfp : PublicIdUnion.from_public bp
        = Except.ok (PublicIdUnion.Ecc x y) := by
      unfold PublicIdUnion.from_public; rw [hbu]
    rw [hfp]
    simp [hlk, hfl, slotDelta, TransientObjectContext.slotCount]
  case unknown =>
    have hfp : PublicIdUnion.from_public bp
        = Except.error (Error.local_error WrapperErrorKind.UnsupportedParam) := by
      unfold PublicIdUnion.from_public; rw [hbu]
    rw [hfp]
    simp [hlk, hfl, slotDelta, TransientObjectContext.slotCount]

theorem loadext_slotDelta (t : TransientObjectContext) (hwf : t.context.wf)
    (pk : List Nat) :
    slotDelta ((TransientObjectContext.load_external_rsa_public_key pk) t)
      t.slotCount := by
  obtain ⟨⟨o, tk, tr, sl, nh, s1, s2, s3⟩, rk⟩ := t
  simp only [Ctx.wf] at hwf
  have hlk := lookup_append_fresh sl nh
    (TpmObject.key (externalRsaTemplate pk)) hwf
  have hfl := filter_ne_append_fresh sl nh
    (TpmObject.key (externalRsaTemplate pk)) hwf
  simp only [TransientObjectContext.load_external_rsa_public_key]
  split
  case isTrue => simp [slotDelta, TransientObjectContext.slotCount]
  rcases h0 : (o tk).err with _ | e0 <;>
    simp [h0, hlk, hfl, slotDelta, TransientObjectContext.slotCount]
  rcases h1 : (o (tk + 1)).err with _ | e1 <;>
    simp [h1, hlk, hfl, slotDelta, TransientObjectContext.slotCount]
  rcases h2 : (o (tk + 2)).err with _ | e2 <;>
    simp [h2, hlk, hfl, slotDelta, TransientObjectContext.slotCount]
  rcases h3 : (o (tk + 3)).err with _ | e3 <;>
    simp [h3, hlk, hfl, slotDelta, TransientObjectContext.slotCount]
  case some =>
    rcases h4 : (o (tk + 4)).err with _ | e4 <;>
      simp [h4, hlk, hfl, slotDelta, TransientObjectContext.slotCount]
  rcases h4 : (o (tk + 4)).err with _ | e4 <;>
    simp [h4, hlk, hfl, slotDelta, TransientObjectContext.slotCount]

theorem create_slotDelta (t : TransientObjectContext) (hwf : t.context.wf)
    (key_size auth_size : Nat) :
    slotDelta ((TransientObjectContext.create_rsa_signing_key key_size
      auth_size) t) t.slotCount := by
  obtain ⟨⟨o, tk, tr, sl, nh, s1, s2, s3⟩, rk⟩ := t
  simp only [Ctx.wf] at hwf
  have hlk := lookup_append_fresh sl nh
    (TpmObject.key (get_rsa_public false false true key_size)) hwf
  have hfl := filter_ne_append_fresh sl nh
    (TpmObject.key (get_rsa_public false false true key_size)) hwf
  simp only [TransientObjectContext.create_rsa_signing_key]
  split
  case isTrue => simp [slotDelta, TransientObjectContext.slotCount]
  split
  case isTrue => simp [slotDelta, TransientObjectContext.slotCount]
  split
  case isTrue =>
    rcases h0 : (o tk).err with _ | e0 <;>
      simp [h0, hlk, hfl, slotDelta, TransientObjectContext.slotCount]
    rcases h1 : (o (tk + 1)).err with _ | e1 <;>
      simp [h1, hlk, hfl, slotDelta, TransientObjectContext.slotCount]
    rcases h2 : (o (tk + 2)).err with _ | e2 <;>
      simp [h2, hlk, hfl, slotDelta, TransientObjectContext.slotCount]
    rcases h3 : (o (tk + 3)).err with _ | e3 <;>
      simp [h3, hlk, hfl, slotDelta, TransientObjectContext.slotCount]
    rcases h4 : (o (tk + 4)).err with _ | e4 <;>
      simp [h4, hlk, hfl, slotDelta, TransientObjectContext.slotCount]
    rcases h5 : (o (tk + 5)).err with _ | e5 <;>
      simp [h5, hlk, hfl, slotDelta, TransientObjectContext.slotCount]
    rcases h6 : (o (tk + 6)).err with _ | e6 <;>
      simp [h6, hlk, hfl, slotDelta, TransientObjectContext.slotCount]
    rcases h7 : (o (tk + 7)).err with _ | e7 <;>
      simp [h7, hlk, hfl, slotDelta, TransientObjectContext.slotCount]
    case some =>
      rcases h8 : (o (tk + 8)).err with _ | e8 <;>
        simp [h8, hlk, hfl, slotDelta, TransientObjectContext.slotCount]
    rcases h8 : (o (tk + 8)).err with _ | e8 <;>
      simp [h8, hlk, hfl, slotDelta, TransientObjectContext.slotCount]
  case isFalse =>
    rcases h0 : (o tk).err with _ | e0 <;>
      simp [h0, hlk, hfl, slotDelta, TransientObjectContext.slotCount]
    rcases h1 : (o (tk + 1)).err with _ | e1 <;>
      simp [h1, hlk, hfl, slotDelta, TransientObjectContext.slotCount]
    rcases h2 : (o (tk + 2)).err with _ | e2 <;>
      simp [h2, hlk, hfl, slotDelta, TransientObjectContext.slotCount]
    rcases h3 : (o (tk + 3)).err with _ | e3 <;>
      simp [h3, hlk, hfl, slotDelta, TransientObjectContext.slotCount]
    rcases h4 : (o (tk + 4)).err with _ | e4 <;>
      simp [h4, hlk, hfl, slotDelta, TransientObjectContext.slotCount]
    rcases h5 : (o (tk + 5)).err with _ | e5 <;>
      simp [h5, hlk, hfl, slotDelta, TransientObjectContext.slotCount]
    case some =>
      rcases h6 : (o (tk + 6)).err with _ | e6 <;>
        simp [h6, hlk, hfl, slotDelta, TransientObjectContext.slotCount]
    rcases h6 : (o (tk + 6)).err with _ | e6 <;>
      simp [h6, hlk, hfl, slotDelta, TransientObjectContext.slotCount]

end Tss

namespace Tss

/-- Claim C3: construction with a root-key auth size above 32 or a root-key
size other than 1024 or 2048 fails with a local WrongParamSize validation
error, and no transport context is created, so no driver call is issued. -/
theorem claim_C3_new_validation (o : Nat → OracleEntry)
    (root_key_size root_key_auth_size : Nat) (owner_hierarchy_auth : List Nat)
    (h : root_key_auth_size > 32 ∨
      (root_key_size ≠ 1024 ∧ root_key_size ≠ 2048)) :
    TransientObjectContext.new o root_key_size root_key_auth_size
      owner_hierarchy_auth
      = (none, Except.error (Error.local_error WrapperErrorKind.WrongParamSize)) := by
  rcases h with h | h
  · simp [TransientObjectContext.new, h]
  · by_cases h32 : root_key_auth_size > 32 <;>
      simp [TransientObjectContext.new, h32, h]

theorem claim_C3_witness :
    TransientObjectContext.new okOracle 1024 33 []
      = (none, Except.error (Error.local_error WrapperErrorKind.WrongParamSize)) :=
  claim_C3_new_validation okOracle 1024 33 [] (Or.inl (by decide))

/-- Claim C7: for a byte sequence whose length is neither 128 nor 256,
load_external_rsa_public_key fails with a local WrongParamSize validation
error and the driver state is completely untouched: no driver call is
issued. -/
theorem claim_C7_loadext_validation (t : TransientObjectContext)
    (public_key : List Nat)
    (h : public_key.length ≠ 128 ∧ public_key.length ≠ 256) :
    (TransientObjectContext.load_external_rsa_public_key public_key) t
      = EStateM.Result.error
          (Error.local_error WrapperErrorKind.WrongParamSize) t := by
  simp [TransientObjectContext.load_external_rsa_public_key, h]

theorem claim_C7_witness :
    (TransientObjectContext.load_external_rsa_public_key
        (List.replicate 100 7)) (mkToc okOracle)
      = EStateM.Result.error
          (Error.local_error WrapperErrorKind.WrongParamSize)
          (mkToc okOracle) :=
  claim_C7_loadext_validation (mkToc okOracle) (List.replicate 100 7)
    (by decide)

/-- Claim C10: constructing with an empty owner-hierarchy auth slice issues
no hierarchy-auth binding driver call: whatever driver context was created,
its trace contains no setHandleAuth call. -/
theorem claim_C10_empty_owner_auth (o : Nat → OracleEntry)
    (root_key_size root_key_auth_size : Nat) (handle : Nat) (auth : List Nat) :
    match (TransientObjectContext.new o root_key_size root_key_auth_size []).1 with
    | some c => DriverCall.setHandleAuth handle auth ∉ c.trace
    | none => True := by
  by_cases h32 : root_key_auth_size > 32
  · simp [TransientObjectContext.new, h32]
  by_cases hks : root_key_size ≠ 1024 ∧ root_key_size ≠ 2048
  · simp [TransientObjectContext.new, h32, hks]
  simp only [TransientObjectContext.new, if_neg h32, if_neg hks,
    TransientObjectContext.newBody, Ctx.new]
  by_cases ha0 : root_key_auth_size > 0
  · simp only [if_pos ha0]
    rcases h0 : (o 0).err with _ | e0 <;> simp [h0]
    rcases h1 : (o 1).err with _ | e1 <;> simp [h1]
    rcases h2 : (o 2).err with _ | e2 <;> simp [h2]
    rcases h3 : (o 3).err with _ | e3 <;> simp [h3]
  · simp only [if_neg ha0]
    rcases h0 : (o 0).err with _ | e0 <;> simp [h0]
    rcases h1 : (o 1).err with _ | e1 <;> simp [h1]
    rcases h2 : (o 2).err with _ | e2 <;> simp [h2]

end Tss

namespace Tss

/-- Claim C6: a successful create_rsa_signing_key returns, along with the key
blob, an auth value whose byte length equals the requested auth_size (the
empty byte string when auth_size is zero). -/
theorem claim_C6_auth_length (t : TransientObjectContext)
    (key_size auth_size : Nat) :
    authLenOk ((TransientObjectContext.create_rsa_signing_key key_size
      auth_size) t) auth_size := by
  obtain ⟨⟨o, tk, tr, sl, nh, s1, s2, s3⟩, rk⟩ := t
  simp only [TransientObjectContext.create_rsa_signing_key]
  split
  case isTrue => simp [authLenOk]
  split
  case isTrue => simp [authLenOk]
  split
  case isTrue =>
    rcases h0 : (o tk).err with _ | e0 <;> simp [authLenOk, h0]
    rcases h1 : (o (tk + 1)).err with _ | e1 <;> simp [authLenOk, h1]
    rcases h2 : (o (tk + 2)).err with _ | e2 <;> simp [authLenOk, h2]
    rcases h3 : (o (tk + 3)).err with _ | e3 <;> simp [authLenOk, h3]
    rcases h4 : (o (tk + 4)).err with _ | e4 <;> simp [authLenOk, h4]
    rcases h5 : (o (tk + 5)).err with _ | e5 <;> simp [authLenOk, h5]
    rcases h6 : (o (tk + 6)).err with _ | e6 <;> simp [authLenOk, h6]
    rcases hlk : List.lookup nh
        (sl ++ [(nh, TpmObject.key (get_rsa_public false false true key_size))])
        with _ | obj
    all_goals
      rcases h7 : (o (tk + 7)).err with _ | e7 <;> simp [authLenOk, h7, hlk]
    all_goals
      rcases h8 : (o (tk + 8)).err with _ | e8 <;> simp [authLenOk, h8, hlk]
  case isFalse =>
    rcases h0 : (o tk).err with _ | e0 <;> simp [authLenOk, h0]
    rcases h1 : (o (tk + 1)).err with _ | e1 <;> simp [authLenOk, h1]
    rcases h2 : (o (tk + 2)).err with _ | e2 <;> simp [authLenOk, h2]
    rcases h3 : (o (tk + 3)).err with _ | e3 <;> simp [authLenOk, h3]
    rcases h4 : (o (tk + 4)).err with _ | e4 <;> simp [authLenOk, h4]
    rcases hlk : List.lookup nh
        (sl ++ [(nh, TpmObject.key (get_rsa_public false false true key_size))])
        with _ | obj
    all_goals
      rcases h5 : (o (tk + 5)).err with _ | e5 <;> simp [authLenOk, h5, hlk]
    all_goals
      rcases h6 : (o (tk + 6)).err with _ | e6 <;> simp [authLenOk, h6, hlk]
    all_goals omega

end Tss

namespace Tss

/-- Claim C9: in create_rsa_signing_key, whatever the outcome, every driver
call that carries sensitive parameters (the random-byte request, key
creation, load, and context save) is immediately preceded in the issued-call
trace by a session-attribute assertion setting exactly the decrypt and
encrypt flags; no sensitive call relies on flags set by an earlier call. -/
theorem claim_C9_attrs_before_sensitive (t : TransientObjectContext)
    (key_size auth_size : Nat) (htr : t.context.trace = []) :
    attrGuarded (resState ((TransientObjectContext.create_rsa_signing_key
      key_size auth_size) t)).context.trace = true := by
  obtain ⟨⟨o, tk, tr, sl, nh, s1, s2, s3⟩, rk⟩ := t
  simp only at htr
  subst htr
  simp only [TransientObjectContext.create_rsa_signing_key]
  split
  case isTrue => simp [attrGuarded]
  split
  case isTrue => simp [attrGuarded]
  split
  case isTrue =>
    rcases h0 : (o tk).err with _ | e0 <;>
      simp [h0, attrGuarded, attrGuardedFrom, sensitiveCall, isAttrAssert]
    rcases h1 : (o (tk + 1)).err with _ | e1 <;>
      simp [h1, attrGuarded, attrGuardedFrom, sensitiveCall, isAttrAssert]
    rcases h2 : (o (tk + 2)).err with _ | e2 <;>
      simp [h2, attrGuarded, attrGuardedFrom, sensitiveCall, isAttrAssert]
    rcases h3 : (o (tk + 3)).err with _ | e3 <;>
      simp [h3, attrGuarded, attrGuardedFrom, sensitiveCall, isAttrAssert]
    rcases h4 : (o (tk + 4)).err with _ | e4 <;>
      simp [h4, attrGuarded, attrGuardedFrom, sensitiveCall, isAttrAssert]
    rcases h5 : (o (tk + 5)).err with _ | e5 <;>
      simp [h5, attrGuarded, attrGuardedFrom, sensitiveCall, isAttrAssert]
    rcases h6 : (o (tk + 6)).err with _ | e6 <;>
      simp [h6, attrGuarded, attrGuardedFrom, sensitiveCall, isAttrAssert]
    rcases hlk : List.lookup nh
        (sl ++ [(nh, TpmObject.key (get_rsa_public false false true key_size))])
        with _ | obj
    all_goals
      rcases h7 : (o (tk + 7)).err with _ | e7 <;>
        simp [h7, hlk, attrGuarded, attrGuardedFrom, sensitiveCall, isAttrAssert]
    all_goals
      rcases h8 : (o (tk + 8)).err with _ | e8 <;>
        simp [h8, hlk, attrGuarded, attrGuardedFrom, sensitiveCall, isAttrAssert]
  case isFalse =>
    rcases h0 : (o tk).err with _ | e0 <;>
      simp [h0, attrGuarded, attrGuardedFrom, sensitiveCall, isAttrAssert]
    rcases h1 : (o (tk + 1)).err with _ | e1 <;>
      simp [h1, attrGuarded, attrGuardedFrom, sensitiveCall, isAttrAssert]
    rcases h2 : (o (tk + 2)).err with _ | e2 <;>
      simp [h2, attrGuarded, attrGuardedFrom, sensitiveCall, isAttrAssert]
    rcases h3 : (o (tk + 3)).err with _ | e3 <;>
      simp [h3, attrGuarded, attrGuardedFrom, sensitiveCall, isAttrAssert]
    rcases h4 : (o (tk + 4)).err with _ | e4 <;>
      simp [h4, attrGuarded, attrGuardedFrom, sensitiveCall, isAttrAssert]
    rcases hlk : List.lookup nh
        (sl ++ [(nh, TpmObject.key (get_rsa_public false false true key_size))])
        with _ | obj
    all_goals
      rcases h5 : (o (tk + 5)).err with _ | e5 <;>
        simp [h5, hlk, attrGuarded, attrGuardedFrom, sensitiveCall, isAttrAssert]
    all_goals
      rcases h6 : (o (tk + 6)).err with _ | e6 <;>
        simp [h6, hlk, attrGuarded, attrGuardedFrom, sensitiveCall, isAttrAssert]

theorem claim_C9_witness :
    attrGuarded (resState ((TransientObjectContext.create_rsa_signing_key
      2048 16) (mkToc okOracle))).context.trace = true :=
  claim_C9_attrs_before_sensitive (mkToc okOracle) 2048 16 (by decide)

end Tss

namespace Tss

/-- Claim C2 (amended): for a context blob whose loaded object's
public-identity data is not the RSA variant, read_public_key reports an
unsupported-parameter error, but the slot holding the loaded object is NOT
flushed first: it is still occupied when the error reaches the caller. -/
theorem claim_C2_amended (t : TransientObjectContext) (hwf : t.context.wf)
    (p : TPM2B_PUBLIC) (hvar : p.publicArea.unique.isRsa = false)
    (h0 : (t.context.oracle t.context.tick).err = none)
    (h1 : (t.context.oracle (t.context.tick + 1)).err = none)
    (h2 : (t.context.oracle (t.context.tick + 2)).err = none)
    (h3 : (t.context.oracle (t.context.tick + 3)).err = none) :
    resErr ((TransientObjectContext.read_public_key
        { obj := TpmObject.key p }) t)
      = some (Error.local_error WrapperErrorKind.UnsupportedParam) ∧
    (resState ((TransientObjectContext.read_public_key
        { obj := TpmObject.key p }) t)).slotCount = t.slotCount + 1 := by
  obtain ⟨⟨o, tk, tr, sl, nh, s1, s2, s3⟩, rk⟩ := t
  simp only [Ctx.wf] at hwf
  simp only at h0 h1 h2 h3
  have hlk := lookup_append_fresh sl nh (TpmObject.key p) hwf
  simp only [TransientObjectContext.read_public_key]
  rcases hbu : p.publicArea.unique with k | d | d2 | ⟨x, y⟩ | tag
  case rsa => rw [hbu] at hvar; simp [TPMU_PUBLIC_ID.isRsa] at hvar
  case keyedHash =>
    have hfp : PublicIdUnion.from_public p
        = Except.ok (PublicIdUnion.KeyedHash d) := by
      unfold PublicIdUnion.from_public; rw [hbu]
    simp [h0, h1, h2, h3, hlk, hfp, TransientObjectContext.slotCount]
  case sym =>
    have hfp : PublicIdUnion.from_public p
        = Except.ok (PublicIdUnion.Sym d2) := by
      unfold PublicIdUnion.from_public; rw [hbu]
    simp [h0, h1, h2, h3, hlk, hfp, TransientObjectContext.slotCount]
  case ecc =>
    have hfp : PublicIdUnion.from_public p
        = Except.ok (PublicIdUnion.Ecc x y) := by
      unfold PublicIdUnion.from_public; rw [hbu]
    simp [h0, h1, h2, h3, hlk, hfp, TransientObjectContext.slotCount]
  case unknown =>
    have hfp : PublicIdUnion.from_public p
        = Except.error (Error.local_error WrapperErrorKind.UnsupportedParam) := by
      unfold PublicIdUnion.from_public; rw [hbu]
    simp [h0, h1, h2, h3, hlk, hfp, TransientObjectContext.slotCount]

/-- Claim C2 counterexample: a concrete non-RSA blob read on a concrete
post-construction state yields the unsupported-parameter error while the
loaded slot stays occupied (count goes from 2 to 3), refuting the claim that
the slot is flushed before the error is reported. -/
theorem claim_C2_counterexample :
    resErr ((TransientObjectContext.read_public_key nonRsaBlob)
        (mkToc okOracle))
      = some (Error.local_error WrapperErrorKind.UnsupportedParam) ∧
    (mkToc okOracle).slotCount = 2 ∧
    (resState ((TransientObjectContext.read_public_key nonRsaBlob)
        (mkToc okOracle))).slotCount = 3 := by
  refine ⟨by decide, by decide, by decide⟩

theorem claim_C2_witness :
    (mkToc okOracle).context.wf ∧
    nonRsaPublic.publicArea.unique.isRsa = false ∧
    resErr ((TransientObjectContext.read_public_key
        { obj := TpmObject.key nonRsaPublic }) (mkToc okOracle))
      = some (Error.local_error WrapperErrorKind.UnsupportedParam) :=
  ⟨by decide, by decide,
    (claim_C2_amended (mkToc okOracle) (by decide) nonRsaPublic (by decide)
      (by decide) (by decide) (by decide) (by decide)).1⟩

end Tss

namespace Tss

/-- Claim C1 (amended): for every public operation, slot accounting holds in
the weakened form the code actually guarantees: a normal return always leaves
the net occupied-slot count unchanged, while an error return leaves it
unchanged or with exactly the one loaded slot still occupied.  The leak is
real: it occurs when set_session_attrs fails after the handle has been
loaded (see the counterexample), so the claim's unconditional flush-on-every-
exit-path does not hold as stated. -/
theorem claim_C1_slot_accounting (t : TransientObjectContext)
    (hwf : t.context.wf) :
    (∀ key_size auth_size, slotDelta
      ((TransientObjectContext.create_rsa_signing_key key_size auth_size) t)
      t.slotCount) ∧
    (∀ public_key, slotDelta
      ((TransientObjectContext.load_external_rsa_public_key public_key) t)
      t.slotCount) ∧
    (∀ blob, slotDelta
      ((TransientObjectContext.read_public_key blob) t) t.slotCount) ∧
    (∀ blob auth dg, slotDelta
      ((TransientObjectContext.sign blob auth dg) t) t.slotCount) ∧
    (∀ blob dg sg, slotDelta
      ((TransientObjectContext.verify_signature blob dg sg) t) t.slotCount) :=
  ⟨fun key_size auth_size => create_slotDelta t hwf key_size auth_size,
   fun public_key => loadext_slotDelta t hwf public_key,
   fun blob => read_slotDelta t hwf blob,
   fun blob auth dg => sign_slotDelta t hwf blob auth dg,
   fun blob dg sg => verify_slotDelta t hwf blob dg sg⟩

/-- Claim C1 counterexample: with a driver that fails exactly the
session-attribute assertion issued after the key handle has been loaded
(call index 4: attrs, create, attrs, load, attrs), create_rsa_signing_key
propagates that error without flushing the loaded slot: the occupied-slot
count goes from 2 to 3 across the call, refuting the claim that every loaded
handle is flushed on every exit path. -/
theorem claim_C1_counterexample :
    resErr ((TransientObjectContext.create_rsa_signing_key 1024 0)
        (mkToc (failAt 4 (Error.Tss2Error 9)))) = some (Error.Tss2Error 9) ∧
    (mkToc (failAt 4 (Error.Tss2Error 9))).slotCount = 2 ∧
    (resState ((TransientObjectContext.create_rsa_signing_key 1024 0)
        (mkToc (failAt 4 (Error.Tss2Error 9))))).slotCount = 3 := by
  refine ⟨by decide, by decide, by decide⟩

theorem claim_C1_witness :
    (mkToc okOracle).context.wf ∧
    slotDelta ((TransientObjectContext.create_rsa_signing_key 2048 16)
      (mkToc okOracle)) (mkToc okOracle).slotCount :=
  ⟨by decide,
    (claim_C1_slot_accounting (mkToc okOracle) (by decide)).1 2048 16⟩

end Tss

namespace Tss

set_option maxRecDepth 8192 in
/-- Claim C4: for a modulus of 128 or 256 bytes, loading it as an external
RSA public key and then reading the public key back from the returned blob
yields exactly the original bytes, unchanged (driver modelled from the spec:
context-save snapshots the loaded object and read-public returns its public
area). -/
theorem claim_C4_roundtrip (t : TransientObjectContext) (hwf : t.context.wf)
    (bytes : List Nat) (hlen : bytes.length = 128 ∨ bytes.length = 256)
    (hok : ∀ i, (t.context.oracle i).err = none) :
    resVal ((TransientObjectContext.load_external_rsa_public_key bytes >>=
      fun blob => TransientObjectContext.read_public_key blob) t)
      = some bytes := by
  obtain ⟨⟨o, tk, tr, sl, nh, s1, s2, s3⟩, rk⟩ := t
  simp only [Ctx.wf] at hwf
  simp only at hok
  have hwf2 : ∀ p ∈ sl, p.1 < nh + 1 := fun p hp => Nat.lt_succ_of_lt (hwf p hp)
  have hlk1 := lookup_append_fresh sl nh
    (TpmObject.key (externalRsaTemplate bytes)) hwf
  have hfl1 := filter_ne_append_fresh sl nh
    (TpmObject.key (externalRsaTemplate bytes)) hwf
  have hlk2 := lookup_append_fresh sl (nh + 1)
    (TpmObject.key (externalRsaTemplate bytes)) hwf2
  have hfl2 := filter_ne_append_fresh sl (nh + 1)
    (TpmObject.key (externalRsaTemplate bytes)) hwf2
  have hne : ¬(bytes.length ≠ 128 ∧ bytes.length ≠ 256) := by
    rcases hlen with h | h <;> simp [h]
  have hfp : PublicIdUnion.from_public (externalRsaTemplate bytes)
      = Except.ok (PublicIdUnion.Rsa
          { size := bytes.length,
            buffer := bytes ++ List.replicate (512 - bytes.length) 0 }) := by
    simp [PublicIdUnion.from_public, externalRsaTemplate, get_rsa_public]
  simp [TransientObjectContext.load_external_rsa_public_key,
    TransientObjectContext.read_public_key, hne, hok, hlk1, hfl1, hlk2, hfl2,
    hfp, List.take_left]

set_option maxRecDepth 8192 in
theorem claim_C4_witness :
    (mkToc okOracle).context.wf ∧
    (List.replicate 128 7).length = 128 ∧
    resVal ((TransientObjectContext.load_external_rsa_public_key
        (List.replicate 128 7) >>=
      fun blob => TransientObjectContext.read_public_key blob)
        (mkToc okOracle)) = some (List.replicate 128 7) :=
  ⟨by decide, by decide,
    claim_C4_roundtrip (mkToc okOracle) (by decide) (List.replicate 128 7)
      (Or.inl (by decide)) (fun _ => rfl)⟩

end Tss

namespace Tss

set_option maxRecDepth 8192 in
/-- Claim C8: for a modulus of 128 or 256 bytes, the RSA public template
built by load_external_rsa_public_key is sign-only and non-restricted, its
key size in bits is the byte length times 8, its fixed-capacity unique-value
field holds exactly the modulus bytes in the first positions with all
remaining positions zero, and its recorded size field equals the byte
length; any blob returned by the operation holds exactly this template. -/
theorem claim_C8_external_template (public_key : List Nat)
    (hlen : public_key.length = 128 ∨ public_key.length = 256) :
    (externalRsaTemplate public_key).publicArea.keyBits = public_key.length * 8 ∧
    (externalRsaTemplate public_key).publicArea.sign = true ∧
    (externalRsaTemplate public_key).publicArea.restricted = false ∧
    (externalRsaTemplate public_key).publicArea.decrypt = false ∧
    (∃ u, (externalRsaTemplate public_key).publicArea.unique
        = TPMU_PUBLIC_ID.rsa u ∧
      u.size = public_key.length ∧
      u.buffer.length = 512 ∧
      u.buffer.take public_key.length = public_key ∧
      u.buffer.drop public_key.length
        = List.replicate (512 - public_key.length) 0) ∧
    (∀ t : TransientObjectContext, t.context.wf →
      blobHoldsTemplate
        ((TransientObjectContext.load_external_rsa_public_key public_key) t)
        public_key) := by
  have hle : public_key.length ≤ 512 := by rcases hlen with h | h <;> omega
  refine ⟨by simp [externalRsaTemplate, get_rsa_public],
    by simp [externalRsaTemplate, get_rsa_public],
    by simp [externalRsaTemplate, get_rsa_public],
    by simp [externalRsaTemplate, get_rsa_public],
    ⟨{ size := public_key.length,
       buffer := public_key ++ List.replicate (512 - public_key.length) 0 },
      by simp [externalRsaTemplate, get_rsa_public],
      rfl,
      by simp; omega,
      by simp [List.take_left],
      by simp [List.drop_left]⟩,
    ?_⟩
  intro t hwf
  obtain ⟨⟨o, tk, tr, sl, nh, s1, s2, s3⟩, rk⟩ := t
  simp only [Ctx.wf] at hwf
  have hlk := lookup_append_fresh sl nh
    (TpmObject.key (externalRsaTemplate public_key)) hwf
  have hfl := filter_ne_append_fresh sl nh
    (TpmObject.key (externalRsaTemplate public_key)) hwf
  simp only [TransientObjectContext.load_external_rsa_public_key]
  split
  case isTrue => simp [blobHoldsTemplate]
  rcases h0 : (o tk).err with _ | e0 <;> simp [h0, hlk, hfl, blobHoldsTemplate]
  rcases h1 : (o (tk + 1)).err with _ | e1 <;> simp [h1, hlk, hfl, blobHoldsTemplate]
  rcases h2 : (o (tk + 2)).err with _ | e2 <;> simp [h2, hlk, hfl, blobHoldsTemplate]
  rcases h3 : (o (tk + 3)).err with _ | e3 <;> simp [h3, hlk, hfl, blobHoldsTemplate]
  all_goals
    rcases h4 : (o (tk + 4)).err with _ | e4 <;> simp [h4, hlk, hfl, blobHoldsTemplate]

set_option maxRecDepth 8192 in
theorem claim_C8_witness :
    (List.replicate 128 9).length = 128 ∧
    (externalRsaTemplate (List.replicate 128 9)).publicArea.keyBits
      = (List.replicate 128 9).length * 8 :=
  ⟨by decide,
    (claim_C8_external_template (List.replicate 128 9) (Or.inl (by decide))).1⟩

end Tss

namespace Tss

/-- Claim C5: in every public operation, once a slot has been loaded, if a
subsequent driver call fails and the best-effort flush of that slot also
fails, the flush's error (not the original operation error) is what the
operation returns.  The conjuncts cover every such site: the context-save
failure in create_rsa_signing_key (the call index of the save depends on
whether an auth value was requested), the context-save failure in
load_external_rsa_public_key, the read-public failure in read_public_key,
the handle-auth-binding and the signing failures in sign, and the pure
signature-conversion and the verification failures in verify_signature. -/
theorem claim_C5_flush_error_wins :
    (∀ (t : TransientObjectContext) (key_size auth_size : Nat) (e1 e2 : Error),
      auth_size ≤ 32 → (key_size = 1024 ∨ key_size = 2048) →
      (∀ i, i < 5 + (if auth_size > 0 then 2 else 0) →
        (t.context.oracle (t.context.tick + i)).err = none) →
      (t.context.oracle
        (t.context.tick + (5 + (if auth_size > 0 then 2 else 0)))).err = some e1 →
      (t.context.oracle
        (t.context.tick + (6 + (if auth_size > 0 then 2 else 0)))).err = some e2 →
      resErr ((TransientObjectContext.create_rsa_signing_key key_size
        auth_size) t) = some e2) ∧
    (∀ (t : TransientObjectContext) (public_key : List Nat) (e1 e2 : Error),
      (public_key.length = 128 ∨ public_key.length = 256) →
      (∀ i, i < 3 → (t.context.oracle (t.context.tick + i)).err = none) →
      (t.context.oracle (t.context.tick + 3)).err = some e1 →
      (t.context.oracle (t.context.tick + 4)).err = some e2 →
      resErr ((TransientObjectContext.load_external_rsa_public_key
        public_key) t) = some e2) ∧
    (∀ (t : TransientObjectContext) (blob : TpmsContext) (e1 e2 : Error),
      (∀ i, i < 3 → (t.context.oracle (t.context.tick + i)).err = none) →
      (t.context.oracle (t.context.tick + 3)).err = some e1 →
      (t.context.oracle (t.context.tick + 4)).err = some e2 →
      resErr ((TransientObjectContext.read_public_key blob) t) = some e2) ∧
    (∀ (t : TransientObjectContext) (blob : TpmsContext) (auth dg : List Nat)
        (e1 e2 : Error),
      (∀ i, i < 2 → (t.context.oracle (t.context.tick + i)).err = none) →
      (t.context.oracle (t.context.tick + 2)).err = some e1 →
      (t.context.oracle (t.context.tick + 3)).err = some e2 →
      resErr ((TransientObjectContext.sign blob auth dg) t) = some e2) ∧
    (∀ (t : TransientObjectContext) (blob : TpmsContext) (auth dg : List Nat)
        (e1 e2 : Error),
      (∀ i, i < 4 → (t.context.oracle (t.context.tick + i)).err = none) →
      (t.context.oracle (t.context.tick + 4)).err = some e1 →
      (t.context.oracle (t.context.tick + 5)).err = some e2 →
      resErr ((TransientObjectContext.sign blob auth dg) t) = some e2) ∧
    (∀ (t : TransientObjectContext) (blob : TpmsContext) (dg : List Nat)
        (sg : Signature) (e1 e2 : Error),
      (∀ i, i < 2 → (t.context.oracle (t.context.tick + i)).err = none) →
      sg.tryIntoTpmt = Except.error e1 →
      (t.context.oracle (t.context.tick + 2)).err = some e2 →
      resErr ((TransientObjectContext.verify_signature blob dg sg) t)
        = some e2) ∧
    (∀ (t : TransientObjectContext) (blob : TpmsContext) (dg : List Nat)
        (sg : Signature) (sw : TPMT_SIGNATURE) (e1 e2 : Error),
      (∀ i, i < 3 → (t.context.oracle (t.context.tick + i)).err = none) →
      sg.tryIntoTpmt = Except.ok sw →
      (t.context.oracle (t.context.tick + 3)).err = some e1 →
      (t.context.oracle (t.context.tick + 4)).err = some e2 →
      resErr ((TransientObjectContext.verify_signature blob dg sg) t)
        = some e2) := by
  refine ⟨?_, ?_, ?_, ?_, ?_, ?_, ?_⟩
  · intro t key_size auth_size e1 e2 h32 hks hpre hsave hflush
    obtain ⟨⟨o, tk, tr, sl, nh, s1, s2, s3⟩, rk⟩ := t
    simp only at hpre hsave hflush
    have hn32 : ¬auth_size > 32 := by omega
    have hnks : ¬(key_size ≠ 1024 ∧ key_size ≠ 2048) := by
      rcases hks with h | h <;> simp [h]
    have h0 : (o tk).err = none := hpre 0 (by split <;> omega)
    by_cases ha0 : auth_size > 0
    · simp only [if_pos ha0, Nat.reduceAdd] at hpre hsave hflush
      simp [add_shift_one, TransientObjectContext.create_rsa_signing_key,
        hn32, hnks, ha0, h0, hpre, hsave, hflush]
    · simp only [if_neg ha0, Nat.reduceAdd] at hpre hsave hflush
      simp [add_shift_one, TransientObjectContext.create_rsa_signing_key,
        hn32, hnks, ha0, h0, hpre, hsave, hflush]
  · intro t public_key e1 e2 hlen hpre hsave hflush
    obtain ⟨⟨o, tk, tr, sl, nh, s1, s2, s3⟩, rk⟩ := t
    simp only at hpre hsave hflush
    have hnlen : ¬(public_key.length ≠ 128 ∧ public_key.length ≠ 256) := by
      rcases hlen with h | h <;> simp [h]
    have h0 : (o tk).err = none := hpre 0 (by omega)
    simp [add_shift_one, TransientObjectContext.load_external_rsa_public_key,
      hnlen, h0, hpre, hsave, hflush]
  · intro t blob e1 e2 hpre hread hflush
    obtain ⟨⟨o, tk, tr, sl, nh, s1, s2, s3⟩, rk⟩ := t
    simp only at hpre hread hflush
    have h0 : (o tk).err = none := hpre 0 (by omega)
    simp [add_shift_one, TransientObjectContext.read_public_key, h0, hpre,
      hread, hflush]
  · intro t blob auth dg e1 e2 hpre hauth hflush
    obtain ⟨⟨o, tk, tr, sl, nh, s1, s2, s3⟩, rk⟩ := t
    simp only at hpre hauth hflush
    have h0 : (o tk).err = none := hpre 0 (by omega)
    simp [add_shift_one, TransientObjectContext.sign, h0, hpre, hauth, hflush]
  · intro t blob auth dg e1 e2 hpre hsig hflush
    obtain ⟨⟨o, tk, tr, sl, nh, s1, s2, s3⟩, rk⟩ := t
    simp only at hpre hsig hflush
    have h0 : (o tk).err = none := hpre 0 (by omega)
    simp [add_shift_one, TransientObjectContext.sign, h0, hpre, hsig, hflush]
  · intro t blob dg sg e1 e2 hpre hconv hflush
    obtain ⟨⟨o, tk, tr, sl, nh, s1, s2, s3⟩, rk⟩ := t
    simp only at hpre hflush
    have h0 : (o tk).err = none := hpre 0 (by omega)
    simp [add_shift_one, TransientObjectContext.verify_signature, h0, hpre,
      hconv, hflush]
  · intro t blob dg sg sw e1 e2 hpre hconv hv hflush
    obtain ⟨⟨o, tk, tr, sl, nh, s1, s2, s3⟩, rk⟩ := t
    simp only at hpre hv hflush
    have h0 : (o tk).err = none := hpre 0 (by omega)
    simp [add_shift_one, TransientObjectContext.verify_signature, h0, hpre,
      hconv, hv, hflush]

set_option maxRecDepth 8192 in
theorem claim_C5_witness :
    resErr ((TransientObjectContext.create_rsa_signing_key 1024 0)
        (mkToc (failAt2 5 (Error.Tss2Error 7) 6 (Error.Tss2Error 8))))
      = some (Error.Tss2Error 8) ∧
    resErr ((TransientObjectContext.load_external_rsa_public_key
        (List.replicate 128 1))
        (mkToc (failAt2 3 (Error.Tss2Error 7) 4 (Error.Tss2Error 8))))
      = some (Error.Tss2Error 8) ∧
    resErr ((TransientObjectContext.read_public_key
        { obj := TpmObject.key (get_rsa_public false false true 1024) })
        (mkToc (failAt2 3 (Error.Tss2Error 7) 4 (Error.Tss2Error 8))))
      = some (Error.Tss2Error 8) ∧
    resErr ((TransientObjectContext.sign
        { obj := TpmObject.key (get_rsa_public false false true 1024) } [] [1])
        (mkToc (failAt2 2 (Error.Tss2Error 7) 3 (Error.Tss2Error 8))))
      = some (Error.Tss2Error 8) ∧
    resErr ((TransientObjectContext.sign
        { obj := TpmObject.key (get_rsa_public false false true 1024) } [] [1])
        (mkToc (failAt2 4 (Error.Tss2Error 7) 5 (Error.Tss2Error 8))))
      = some (Error.Tss2Error 8) ∧
    resErr ((TransientObjectContext.verify_signature
        { obj := TpmObject.key (get_rsa_public false false true 1024) } [1]
        { scheme := 5, signature := List.replicate 513 0 })
        (mkToc (failAt 2 (Error.Tss2Error 8))))
      = some (Error.Tss2Error 8) ∧
    resErr ((TransientObjectContext.verify_signature
        { obj := TpmObject.key (get_rsa_public false false true 1024) } [1]
        { scheme := 5, signature := [] })
        (mkToc (failAt2 3 (Error.Tss2Error 7) 4 (Error.Tss2Error 8))))
      = some (Error.Tss2Error 8) :=
  ⟨claim_C5_flush_error_wins.1
      (mkToc (failAt2 5 (Error.Tss2Error 7) 6 (Error.Tss2Error 8)))
      1024 0 (Error.Tss2Error 7) (Error.Tss2Error 8)
      (by decide) (Or.inl (by decide)) (by decide) (by decide) (by decide),
   claim_C5_flush_error_wins.2.1
      (mkToc (failAt2 3 (Error.Tss2Error 7) 4 (Error.Tss2Error 8)))
      (List.replicate 128 1) (Error.Tss2Error 7) (Error.Tss2Error 8)
      (Or.inl (by decide)) (by decide) (by decide) (by decide),
   claim_C5_flush_error_wins.2.2.1
      (mkToc (failAt2 3 (Error.Tss2Error 7) 4 (Error.Tss2Error 8)))
      { obj := TpmObject.key (get_rsa_public false false true 1024) }
      (Error.Tss2Error 7) (Error.Tss2Error 8)
      (by decide) (by decide) (by decide),
   claim_C5_flush_error_wins.2.2.2.1
      (mkToc (failAt2 2 (Error.Tss2Error 7) 3 (Error.Tss2Error 8)))
      { obj := TpmObject.key (get_rsa_public false false true 1024) } [] [1]
      (Error.Tss2Error 7) (Error.Tss2Error 8)
      (by decide) (by decide) (by decide),
   claim_C5_flush_error_wins.2.2.2.2.1
      (mkToc (failAt2 4 (Error.Tss2Error 7) 5 (Error.Tss2Error 8)))
      { obj := TpmObject.key (get_rsa_public false false true 1024) } [] [1]
      (Error.Tss2Error 7) (Error.Tss2Error 8)
      (by decide) (by decide) (by decide),
   claim_C5_flush_error_wins.2.2.2.2.2.1
      (mkToc (failAt 2 (Error.Tss2Error 8)))
      { obj := TpmObject.key (get_rsa_public false false true 1024) } [1]
      { scheme := 5, signature := List.replicate 513 0 }
      (Error.local_error WrapperErrorKind.WrongParamSize) (Error.Tss2Error 8)
      (by decide) rfl (by decide),
   claim_C5_flush_error_wins.2.2.2.2.2.2
      (mkToc (failAt2 3 (Error.Tss2Error 7) 4 (Error.Tss2Error 8)))
      { obj := TpmObject.key (get_rsa_public false false true 1024) } [1]
      { scheme := 5, signature := [] }
      { sigAlg := 5, size := 0, buffer := List.replicate 512 0 }
      (Error.Tss2Error 7) (Error.Tss2Error 8)
      (by decide) rfl (by decide) (by decide)⟩

end Tss
